import Mathlib

/-!
Verification of the harpseal plugin scheduler and web query layer.

Shallow embedding of `src/harpseal/plugin.py` and `src/harpseal/web/handler.py`.
Timestamps (`datetime` values in the source) are embedded as natural numbers
denoting epoch seconds.  The producer's behaviour during one cycle is passed in
as an `Except Unit (Option PData)` value: `Except.error ()` stands for the
producer raising, `Except.ok d` for the producer returning `d` (which is `none`
when the producer returned no data).
-/

set_option synthInstance.maxSize 512

deriving instance DecidableEq for Except

namespace Harpseal

/-- Numeric kind of one metric field (`int` or `float` in the plugin schema). -/
inductive NumKind where
  | int
  | float
  deriving DecidableEq

/-- One persisted record for a field group: a creation timestamp (epoch
seconds) plus a mapping from metric name to value (`record.items` in
`handler.py`). -/
structure Sample where
  created_at : Nat
  items : List (String × Int)
  deriving DecidableEq

/-- The data a producer returns for one cycle: per field-group name, the list
of metric values keyed by metric name (the `data_form` dicts of `plugin.py`). -/
abbrev PData := List (String × List (String × Int))

/-- State of one `Plugin` instance (`src/harpseal/plugin.py`, class `Plugin`).
`isCoroutine` records whether `asyncio.iscoroutinefunction(self.provider)`
holds for this instance.  `fields` is the frozen field-group schema (group
name to ordered metric declarations), `field_types` the rendering-hint dict
(a `defaultdict` with default `"line"`), and `models` the per-group stored
samples backing `self.models[name].objects`. -/
structure Plugin where
  name : String := ""
  description : String := ""
  priority : Int := 0
  every : Nat := 1
  isCoroutine : Bool := true
  fields : List (String × List (String × NumKind)) := []
  field_types : List (String × String) := []
  models : List (String × List Sample) := []
  last_executed_at : Option Nat := none
  last_executed_result : Option Bool := none
  deriving DecidableEq

/-- The observable events of one call to `Plugin.execute`
(`src/harpseal/plugin.py` lines 92-108), in program order. -/
inductive ExecEvent where
  | raiseTypeError
  | setExecutedAt (t : Nat)
  | invokeProvider
  | setResult (b : Bool)
  | warnNoData
  deriving DecidableEq

/-- The data value `execute` ends up holding after the `try` block: `None`
when the producer raised, otherwise whatever the producer returned. -/
def dataOf (pr : Except Unit (Option PData)) : Option PData :=
  match pr with
  | Except.error _ => none
  | Except.ok d => d

/-- Event trace of one call to `Plugin.execute` (`plugin.py` lines 92-108):
the coroutine check comes first, then `last_executed_at = datetime.now()`,
then the producer invocation inside `try`, then the result flag, then the
`data is None` warning. -/
def Plugin.executeTrace (p : Plugin) (now : Nat)
    (pr : Except Unit (Option PData)) : List ExecEvent :=
  if p.isCoroutine = false then [ExecEvent.raiseTypeError]
  else
    [ExecEvent.setExecutedAt now, ExecEvent.invokeProvider,
     ExecEvent.setResult (match pr with
       | Except.error _ => false
       | Except.ok _ => true)] ++
    (if (dataOf pr).isNone then [ExecEvent.warnNoData] else [])

/-- Effect of one execution event on the plugin's mutable run state.  Raising,
invoking the provider and printing the warning do not touch the state. -/
def applyEvent (p : Plugin) (e : ExecEvent) : Plugin :=
  match e with
  | ExecEvent.setExecutedAt t => { p with last_executed_at := some t }
  | ExecEvent.setResult b => { p with last_executed_result := some b }
  | _ => p

/-- Plugin state after one call to `Plugin.execute`, obtained by replaying the
event trace. -/
def Plugin.executeState (p : Plugin) (now : Nat)
    (pr : Except Unit (Option PData)) : Plugin :=
  (p.executeTrace now pr).foldl applyEvent p

/-- The error `Plugin.execute` can raise: the `TypeError` of `plugin.py`
line 96 for a provider that is not a coroutine function. -/
inductive ExecError where
  | typeError
  deriving DecidableEq

/-- Result of `Plugin.execute` (`plugin.py` lines 92-108): either the
`TypeError` when the provider is not a coroutine function, or — normal return
— the updated plugin, the data passed on for persistence (the second slot of
the returned tuple `(self, data)`), and whether the no-data warning was
printed. -/
def Plugin.execute (p : Plugin) (now : Nat)
    (pr : Except Unit (Option PData)) :
    Except ExecError (Plugin × Option PData × Bool) :=
  if p.isCoroutine = false then Except.error ExecError.typeError
  else Except.ok (p.executeState now pr, dataOf pr, (dataOf pr).isNone)

/-- `PluginMixin.register_plugins` (`plugin.py` lines 152-166): walk the
configured plugin names, resolve each one (the `import_module` plus
`inspect.getmembers` plus `cls()` pipeline, embedded as the `resolve`
function; `none` stands for an `ImportError`), and append each resolved
instance to the plugins tuple.  An unresolvable name aborts the whole
registration with a `RuntimeWarning`.  No property of the resolved instance
itself — in particular not whether its provider is a coroutine function —
is checked here. -/
def register_plugins (resolve : String → Option Plugin) :
    List String → List Plugin → Except String (List Plugin)
  | [], plugins => Except.ok plugins
  | n :: ns, plugins =>
    match resolve n with
    | none => Except.error ("Cannot load harpseal.plugins." ++ n ++ " plugin due to import error.")
    | some inst => register_plugins resolve ns (plugins ++ [inst])

/-- `Plugin.properties` (`plugin.py` lines 123-134): a read-only property; in
this embedding a pure function of the plugin state that modifies nothing.
Raises `ValueError` (embedded as `Except.error ()`) exactly when `name` or
`description` is the empty string, and otherwise returns the identity tuple. -/
def Plugin.properties (p : Plugin) :
    Except Unit (String × String × Int × Nat) :=
  if p.name = "" || p.description = "" then Except.error ()
  else Except.ok (p.name, p.description, p.priority, p.every)

/-! ### Web handler (`src/harpseal/web/handler.py`) -/

/-- Modelled from the spec: `harpseal.utils.datetime.unixtime` is absent from
`src/`; the spec (§4.4) calls it `epochSeconds(created_at)`.  Timestamps are
embedded as epoch seconds already, so the conversion is the identity. -/
def unixtime (t : Nat) : Nat := t

/-- Modelled from the spec: `harpseal.utils.datetime.parse` is absent from
`src/`.  The spec (§4.4) says bound parsing accepts "a recognized date/time
string"; recognized strings are modelled as nonempty digit strings denoting
epoch seconds, and anything else fails to parse (`none` embeds the raised
parse exception). -/
def dtparse (s : String) : Option Nat :=
  if s.data ≠ [] ∧ s.data.all Char.isDigit then
    some (s.data.foldl (fun acc c => acc * 10 + (c.toNat - 48)) 0)
  else none

/-- Modelled from the spec: `harpseal.utils.datetime.ago(days=7)` is absent
from `src/`; the spec (§4.3) gives the default lower bound as `now - 7 days`,
in epoch seconds (truncated subtraction on `Nat`). -/
def ago7 (now : Nat) : Nat := now - 7 * 24 * 60 * 60

/-- The comparison the stored samples are ordered by: ascending
`created_at`. -/
def sampleLE (a b : Sample) : Prop := a.created_at ≤ b.created_at

instance : DecidableRel sampleLE := fun a b =>
  inferInstanceAs (Decidable (a.created_at ≤ b.created_at))

instance : IsTotal Sample sampleLE :=
  ⟨fun a b => Nat.le_total a.created_at b.created_at⟩

instance : IsTrans Sample sampleLE :=
  ⟨fun _ _ _ hab hbc => Nat.le_trans hab hbc⟩

/-- Modelled from the spec: the mongoengine query
`model.objects(created_at__gte=gte, created_at__lte=lte)` used at
`handler.py` line 84; `harpseal.models.make_model` and the storage engine are
absent from `src/`.  The spec (§4.3) says the query returns the samples with
`gte <= created_at <= lte`, both ends inclusive, ordered ascending by
`created_at`. -/
def Model.objects (store : List Sample) (gte lte : Nat) : List Sample :=
  List.insertionSort sampleLE
    (store.filter fun s => decide (gte ≤ s.created_at) && decide (s.created_at ≤ lte))

/-- `plugin.field_types[k]`: a `defaultdict` lookup defaulting to
`"line"`. -/
def fieldTypeOf (p : Plugin) (k : String) : String :=
  (p.field_types.lookup k).getD "line"

/-- The stored samples behind `plugin.models[k].objects`. -/
def modelsOf (p : Plugin) (k : String) : List Sample :=
  (p.models.lookup k).getD []

/-- `getattr(record.items, n)` at `handler.py` line 88: fetch the value of
metric `n` from a sample's items. -/
def getAttr (items : List (String × Int)) (n : String) : Int :=
  (items.lookup n).getD 0

/-- One chart-ready row built at `handler.py` lines 86-89:
`[dtutils.unixtime(record.created_at)]` followed by
`getattr(record.items, n)` for each declared metric `(n, _)` in declaration
order. -/
def rowOf (v : List (String × NumKind)) (r : Sample) : List Int :=
  (unixtime r.created_at : Int) :: v.map fun nk => getAttr r.items nk.1

/-- The per-field-group result dict of `Handler.get_plugin_logs`
(`handler.py` lines 78-90): rendering hint, legends and data rows. -/
structure FieldData where
  type : String
  legends : List String
  data : List (List Int)
  deriving DecidableEq

/-- Build the `fielddata` dict for one field group `k` with declared metrics
`v` (`handler.py` lines 78-90). -/
def fieldDataFor (p : Plugin) (k : String) (v : List (String × NumKind))
    (gte lte : Nat) : FieldData :=
  { type := fieldTypeOf p k,
    legends := "created" :: v.map Prod.fst,
    data := (Model.objects (modelsOf p k) gte lte).map (rowOf v) }

/-- `Handler.get_plugin_logs` (`handler.py` lines 63-91): `KeyError` (embedded
as `Except.error`) when the name is not a key of the handler's plugins dict,
otherwise the mapping from field-group name to its `fielddata`. -/
def Handler.get_plugin_logs (plugins : List Plugin) (name : String)
    (gte lte : Nat) : Except String (List (String × FieldData)) :=
  match plugins.find? (fun p => p.name == name) with
  | none => Except.error "Plugin does not exist."
  | some p => Except.ok (p.fields.map fun kv => (kv.1, fieldDataFor p kv.1 kv.2 gte lte))

/-- The per-plugin detail record of `Handler.get_plugin_list` with
`withdetails=True` (`handler.py` lines 52-59). -/
structure PluginDetails where
  description : String
  every : Nat
  lastExecutedAt : Option Nat
  lastExecutedResult : Option Bool
  deriving DecidableEq

/-- One entry of `Handler.get_plugin_list(withdetails=True)`. -/
def pluginDetails (p : Plugin) : PluginDetails :=
  { description := p.description,
    every := p.every,
    lastExecutedAt := p.last_executed_at.map unixtime,
    lastExecutedResult := p.last_executed_result }

/-- A GET request as seen by `plugin_handler`: the `{name}` match segment and
the optional `gte` and `lte` query parameters (`req.GET.get` returns `None`
when the parameter is missing, and a possibly empty string otherwise). -/
structure Request where
  name : String
  gteParam : Option String
  lteParam : Option String

/-- Python truthiness of an optional string: `None` and `''` are falsy. -/
def truthy : Option String → Bool
  | none => false
  | some s => s ≠ ""

/-- `Handler.parse_comptarget` (`handler.py` lines 38-46): each bound is
parsed when truthy and otherwise replaced by its default (`ago(days=7)` for
`gte`, `now` for `lte`); if either parse raises, both bounds become `None`. -/
def parse_comptarget (now : Nat) (gteP lteP : Option String) :
    Option Nat × Option Nat :=
  let r : Option (Nat × Nat) := do
    let g ← if truthy gteP then dtparse (gteP.getD "") else pure (ago7 now)
    let l ← if truthy lteP then dtparse (lteP.getD "") else pure now
    pure (g, l)
  match r with
  | none => (none, none)
  | some gl => (some gl.1, some gl.2)

/-- The payload of a successful `plugin_handler` response (`handler.py`
lines 100-112): the plugin name, the logs, and the detail fields merged in by
`data.update(plugin)`. -/
structure PluginPayload where
  name : String
  data : List (String × FieldData)
  details : PluginDetails
  deriving DecidableEq

/-- A web `Response`: either a success payload or the error envelope
`{'ok': False, 'reason': reason}`. -/
inductive WResponse where
  | ok (payload : PluginPayload)
  | err (reason : String)
  deriving DecidableEq

/-- Outcome of handling a request: a `Response`, or an unhandled exception
escaping the handler (a crash). -/
inductive WResult where
  | resp (r : WResponse)
  | crash (msg : String)
  deriving DecidableEq

/-- The `plugin_required` decorator (`handler.py` lines 14-21): answer the
`{'ok': False, 'reason': 'Plugin does not exist.'}` response when the
request's name is not a key of the plugins dict, and otherwise defer to the
wrapped handler. -/
def plugin_required (inner : Request → WResult) (plugins : List Plugin)
    (req : Request) : WResult :=
  if (plugins.find? fun p => p.name == req.name).isSome = false
  then WResult.resp (WResponse.err "Plugin does not exist.")
  else inner req

/-- Body of `Handler.plugin_handler` (`handler.py` lines 97-112), without the
`plugin_required` decorator: parse the bounds, answer the parse-error
envelope when they came back `None`, and otherwise assemble the details plus
logs payload.  A `KeyError` out of the details lookup or
`get_plugin_logs` would escape as a crash. -/
def plugin_handler_body (now : Nat) (plugins : List Plugin)
    (req : Request) : WResult :=
  match parse_comptarget now req.gteParam req.lteParam with
  | (some gte, some lte) =>
    match plugins.find? (fun p => p.name == req.name) with
    | none => WResult.crash "KeyError"
    | some p =>
      match Handler.get_plugin_logs plugins req.name gte lte with
      | Except.error e => WResult.crash e
      | Except.ok d =>
        WResult.resp (WResponse.ok
          { name := req.name, data := d, details := pluginDetails p })
  | _ => WResult.resp (WResponse.err "The given datetime cannot be parsed.")

/-- `Handler.plugin_handler` (`handler.py` lines 96-112): the body wrapped in
the `plugin_required` decorator. -/
def Handler.plugin_handler (now : Nat) (plugins : List Plugin)
    (req : Request) : WResult :=
  plugin_required (plugin_handler_body now plugins) plugins req

/-! ### Concrete instances used as test vectors -/

/-- The `disk` plugin of the spec's concrete scenario (§8): field group
`usage = [(free, int), (used, int)]`, rendering hint `line`, `every = 1`,
with one stored sample `free=500, used=1500` at time `999000`. -/
def diskPlugin : Plugin :=
  { name := "disk", description := "disk usage", every := 1, isCoroutine := true,
    fields := [("usage", [("free", NumKind.int), ("used", NumKind.int)])],
    field_types := [("usage", "line")],
    models := [("usage", [⟨999000, [("free", 500), ("used", 1500)]⟩])] }

/-- A plugin whose provider is a plain synchronous function
(`asyncio.iscoroutinefunction(self.provider)` is false). -/
def syncPlugin : Plugin :=
  { name := "sync", description := "sync provider", isCoroutine := false }

/-- A resolver (the `import_module` plus instantiation pipeline of
`register_plugins`) that knows only the `sync` plugin. -/
def syncResolve : String → Option Plugin :=
  fun n => if n = "sync" then some syncPlugin else none

/-- A plugin whose stored samples are deliberately not monotonic in insertion
order: `created_at` values `30, 10, 40, 20`. -/
def logsPlugin : Plugin :=
  { name := "logs", description := "log samples", isCoroutine := true,
    fields := [("m", [("x", NumKind.int)])],
    field_types := [("m", "bar")],
    models := [("m", [⟨30, [("x", 3)]⟩, ⟨10, [("x", 1)]⟩, ⟨40, [("x", 4)]⟩,
                      ⟨20, [("x", 2)]⟩])] }

/-! ### Helper lemmas -/

/-- `get_plugin_logs` on a registered name is the per-group `fielddata`
map. -/
theorem get_plugin_logs_found (plugins : List Plugin) (name : String)
    (p : Plugin) (gte lte : Nat)
    (hp : plugins.find? (fun q => q.name == name) = some p) :
    Handler.get_plugin_logs plugins name gte lte =
      Except.ok (p.fields.map fun kv => (kv.1, fieldDataFor p kv.1 kv.2 gte lte)) := by
  unfold Handler.get_plugin_logs
  rw [hp]

/-- Looking each key of a duplicate-free association list built by zipping
keys with values recovers exactly the values. -/
theorem map_lookup_zip (ns : List String) (vs : List Int)
    (hnd : ns.Nodup) (hlen : vs.length = ns.length) :
    ns.map (fun n => (((ns.zip vs).lookup n).getD 0)) = vs := by
  induction ns generalizing vs with
  | nil =>
    cases vs with
    | nil => rfl
    | cons w ws => simp at hlen
  | cons n ns ih =>
    cases vs with
    | nil => simp at hlen
    | cons w ws =>
      have hnd' : ns.Nodup := hnd.of_cons
      have hn : n ∉ ns := (List.nodup_cons.mp hnd).1
      have hlen' : ws.length = ns.length := by simpa using hlen
      have hhead : ((((n :: ns).zip (w :: ws)).lookup n).getD 0) = w := by
        simp [List.lookup_cons]
      have htail : ns.map (fun m => ((((n :: ns).zip (w :: ws)).lookup m).getD 0))
          = ws := by
        have hcongr :
            ns.map (fun m => ((((n :: ns).zip (w :: ws)).lookup m).getD 0))
              = ns.map (fun m => (((ns.zip ws).lookup m).getD 0)) := by
          refine List.map_congr_left ?_
          intro m hm
          have hne : (m == n) = false :=
            beq_false_of_ne fun he => hn (he ▸ hm)
          simp [List.lookup_cons, hne]
        rw [hcongr]
        exact ih ws hnd' hlen'
      simp only [List.map_cons]
      rw [hhead, htail]

/-! ### Claim theorems -/

/-- C2: when the producer raises, the cycle sets `last_executed_result` to
`false`, the returned data slot is `None` (so nothing is handed on for
persistence), and `execute` returns normally instead of propagating the
exception. -/
theorem C2_producer_failure_isolated (p : Plugin) (now : Nat)
    (h : p.isCoroutine = true) :
    Plugin.execute p now (Except.error ()) =
      Except.ok ({ p with last_executed_at := some now,
                          last_executed_result := some false }, none, true) := by
  simp [Plugin.execute, Plugin.executeState, Plugin.executeTrace, applyEvent,
    dataOf, h]

/-- Witness for C2 at the `disk` plugin and time `5`. -/
theorem C2_witness :
    diskPlugin.isCoroutine = true ∧
    Plugin.execute diskPlugin 5 (Except.error ()) =
      Except.ok ({ diskPlugin with last_executed_at := some 5,
                                   last_executed_result := some false }, none, true) :=
  ⟨rfl, C2_producer_failure_isolated diskPlugin 5 rfl⟩

/-- C3: in every cycle whose producer is actually invoked, the event trace of
`execute` starts with the single assignment of `last_executed_at` and only
then invokes the producer; no later event assigns `last_executed_at` again,
and the post-state records the cycle's time — regardless of the producer's
outcome `pr`. -/
theorem C3_last_executed_at_once_before_producer (p : Plugin) (now : Nat)
    (pr : Except Unit (Option PData)) (h : p.isCoroutine = true) :
    (∃ rest, p.executeTrace now pr =
        ExecEvent.setExecutedAt now :: ExecEvent.invokeProvider :: rest ∧
        ∀ t, ExecEvent.setExecutedAt t ∉ rest) ∧
    (p.executeState now pr).last_executed_at = some now := by
  constructor
  · refine ⟨ExecEvent.setResult (match pr with
      | Except.error _ => false
      | Except.ok _ => true) ::
      (if (dataOf pr).isNone then [ExecEvent.warnNoData] else []), ?_, ?_⟩
    · simp [Plugin.executeTrace, h]
    · intro t
      rcases pr with e | d
      · simp [dataOf]
      · cases d <;> simp [dataOf]
  · rcases pr with e | d
    · simp [Plugin.executeState, Plugin.executeTrace, applyEvent, dataOf, h]
    · cases d <;>
        simp [Plugin.executeState, Plugin.executeTrace, applyEvent, dataOf, h]

/-- Witness for C3 at the `disk` plugin, time `5`, producer returning no
data. -/
theorem C3_witness :
    diskPlugin.isCoroutine = true ∧
    ((∃ rest, diskPlugin.executeTrace 5 (Except.ok none) =
        ExecEvent.setExecutedAt 5 :: ExecEvent.invokeProvider :: rest ∧
        ∀ t, ExecEvent.setExecutedAt t ∉ rest) ∧
      (diskPlugin.executeState 5 (Except.ok none)).last_executed_at = some 5) :=
  ⟨rfl, C3_last_executed_at_once_before_producer diskPlugin 5 (Except.ok none) rfl⟩

/-- C4: when the producer returns without data, the cycle still sets
`last_executed_result` to `true`, hands nothing on for persistence, and the
no-data warning is printed. -/
theorem C4_no_data_is_success (p : Plugin) (now : Nat)
    (h : p.isCoroutine = true) :
    Plugin.execute p now (Except.ok none) =
      Except.ok ({ p with last_executed_at := some now,
                          last_executed_result := some true }, none, true) := by
  simp [Plugin.execute, Plugin.executeState, Plugin.executeTrace, applyEvent,
    dataOf, h]

/-- Witness for C4 at the `disk` plugin and time `5`. -/
theorem C4_witness :
    diskPlugin.isCoroutine = true ∧
    Plugin.execute diskPlugin 5 (Except.ok none) =
      Except.ok ({ diskPlugin with last_executed_at := some 5,
                                   last_executed_result := some true }, none, true) :=
  ⟨rfl, C4_no_data_is_success diskPlugin 5 rfl⟩

/-- C9: reading a plugin's properties fails exactly when its name or its
description is empty, and otherwise yields the identity tuple
`(name, description, priority, every)`; in this embedding `properties` is a
pure function of the plugin state, so it modifies nothing. -/
theorem C9_properties_spec (p : Plugin) :
    (Plugin.properties p = Except.error () ↔
      p.name = "" ∨ p.description = "") ∧
    (¬(p.name = "" ∨ p.description = "") →
      Plugin.properties p =
        Except.ok (p.name, p.description, p.priority, p.every)) := by
  unfold Plugin.properties
  by_cases h : p.name = "" ∨ p.description = "" <;> simp [h]

/-- Witness for C9 at the `disk` plugin, whose name and description are
nonempty. -/
theorem C9_witness :
    (Plugin.properties diskPlugin = Except.error () ↔
      diskPlugin.name = "" ∨ diskPlugin.description = "") ∧
    (¬(diskPlugin.name = "" ∨ diskPlugin.description = "") →
      Plugin.properties diskPlugin =
        Except.ok (diskPlugin.name, diskPlugin.description,
          diskPlugin.priority, diskPlugin.every)) :=
  C9_properties_spec diskPlugin

/-- C10: when the provider is not a coroutine function, `execute` raises the
`TypeError` as its very first event, and the run state is untouched:
`last_executed_at` and `last_executed_result` keep their previous values. -/
theorem C10_sync_rejection_leaves_state (p : Plugin) (now : Nat)
    (pr : Except Unit (Option PData)) (h : p.isCoroutine = false) :
    Plugin.execute p now pr = Except.error ExecError.typeError ∧
    p.executeTrace now pr = [ExecEvent.raiseTypeError] ∧
    (p.executeState now pr).last_executed_at = p.last_executed_at ∧
    (p.executeState now pr).last_executed_result = p.last_executed_result := by
  refine ⟨?_, ?_, ?_, ?_⟩ <;>
    simp [Plugin.execute, Plugin.executeState, Plugin.executeTrace, applyEvent, h]

/-- Witness for C10 at the `sync` plugin. -/
theorem C10_witness :
    syncPlugin.isCoroutine = false ∧
    (Plugin.execute syncPlugin 7 (Except.ok none) =
        Except.error ExecError.typeError ∧
      syncPlugin.executeTrace 7 (Except.ok none) = [ExecEvent.raiseTypeError] ∧
      (syncPlugin.executeState 7 (Except.ok none)).last_executed_at =
        syncPlugin.last_executed_at ∧
      (syncPlugin.executeState 7 (Except.ok none)).last_executed_result =
        syncPlugin.last_executed_result) :=
  ⟨rfl, C10_sync_rejection_leaves_state syncPlugin 7 (Except.ok none) rfl⟩

/-- C1 counterexample: a plugin whose provider is synchronous is accepted by
`register_plugins` without any check, and the rejection happens at run time
instead: `execute` raises the `TypeError`. -/
theorem C1_counterexample :
    register_plugins syncResolve ["sync"] [] = Except.ok [syncPlugin] ∧
    syncPlugin.isCoroutine = false ∧
    Plugin.execute syncPlugin 0 (Except.ok none) =
      Except.error ExecError.typeError := by
  decide

/-- C1 (amended): a resolved plugin whose provider is not a coroutine
function is registered like any other — `register_plugins` performs no
coroutine check — and every invocation of the cycle execution operation
rejects it at run time with the `TypeError`. -/
theorem C1_sync_rejected_only_at_runtime (resolve : String → Option Plugin)
    (n : String) (p : Plugin) (plugins : List Plugin)
    (h1 : resolve n = some p) (h2 : p.isCoroutine = false) :
    register_plugins resolve [n] plugins = Except.ok (plugins ++ [p]) ∧
    ∀ now pr, Plugin.execute p now pr = Except.error ExecError.typeError := by
  constructor
  · simp [register_plugins, h1]
  · intro now pr
    simp [Plugin.execute, h2]

/-- Witness for the amended C1 at the `sync` plugin. -/
theorem C1_witness :
    (syncResolve "sync" = some syncPlugin ∧ syncPlugin.isCoroutine = false) ∧
    register_plugins syncResolve ["sync"] [] = Except.ok ([] ++ [syncPlugin]) ∧
    Plugin.execute syncPlugin 3 (Except.error ()) =
      Except.error ExecError.typeError :=
  ⟨⟨rfl, rfl⟩,
    (C1_sync_rejected_only_at_runtime syncResolve "sync" syncPlugin [] rfl rfl).1,
    (C1_sync_rejected_only_at_runtime syncResolve "sync" syncPlugin [] rfl rfl).2
      3 (Except.error ())⟩

/-- C5: for a registered plugin, the logs result is built per field group
from the range query, and the query returns exactly the stored samples with
`gte ≤ created_at ≤ lte` (both ends inclusive, with multiplicity), ordered
ascending by `created_at` — with no monotonicity assumption on the stored
order. -/
theorem C5_logs_time_range (plugins : List Plugin) (name : String)
    (p : Plugin) (gte lte : Nat)
    (hp : plugins.find? (fun q => q.name == name) = some p)
    (hle : gte ≤ lte) :
    Handler.get_plugin_logs plugins name gte lte =
      Except.ok (p.fields.map fun kv =>
        (kv.1, fieldDataFor p kv.1 kv.2 gte lte)) ∧
    ∀ k v, (k, v) ∈ p.fields →
      (fieldDataFor p k v gte lte).data =
        (Model.objects (modelsOf p k) gte lte).map (rowOf v) ∧
      List.Perm (Model.objects (modelsOf p k) gte lte)
        ((modelsOf p k).filter fun s =>
          decide (gte ≤ s.created_at) && decide (s.created_at ≤ lte)) ∧
      List.Sorted sampleLE (Model.objects (modelsOf p k) gte lte) ∧
      ∀ s, s ∈ Model.objects (modelsOf p k) gte lte ↔
        s ∈ modelsOf p k ∧ gte ≤ s.created_at ∧ s.created_at ≤ lte := by
  refine ⟨get_plugin_logs_found plugins name p gte lte hp, ?_⟩
  intro k v hkv
  refine ⟨rfl, ?_, ?_, ?_⟩
  · unfold Model.objects
    exact List.perm_insertionSort sampleLE _
  · unfold Model.objects
    exact List.sorted_insertionSort sampleLE _
  · intro s
    unfold Model.objects
    rw [(List.perm_insertionSort sampleLE _).mem_iff]
    simp [List.mem_filter, and_assoc]

/-- Witness for C5 on a store whose `created_at` values arrive in the order
`30, 10, 40, 20`: querying `[15, 35]` yields a sorted permutation of the
in-range samples. -/
theorem C5_witness :
    (([logsPlugin].find? fun q => q.name == "logs") = some logsPlugin ∧
      (15 : Nat) ≤ 35) ∧
    Handler.get_plugin_logs [logsPlugin] "logs" 15 35 =
      Except.ok (logsPlugin.fields.map fun kv =>
        (kv.1, fieldDataFor logsPlugin kv.1 kv.2 15 35)) ∧
    List.Perm (Model.objects (modelsOf logsPlugin "m") 15 35)
      ((modelsOf logsPlugin "m").filter fun s =>
        decide (15 ≤ s.created_at) && decide (s.created_at ≤ 35)) ∧
    List.Sorted sampleLE (Model.objects (modelsOf logsPlugin "m") 15 35) ∧
    ((⟨20, [("x", 2)]⟩ : Sample) ∈ Model.objects (modelsOf logsPlugin "m") 15 35 ↔
      (⟨20, [("x", 2)]⟩ : Sample) ∈ modelsOf logsPlugin "m" ∧
        15 ≤ 20 ∧ 20 ≤ 35) :=
  have h := C5_logs_time_range [logsPlugin] "logs" logsPlugin 15 35 rfl
    (by decide)
  have h2 := h.2 "m" [("x", NumKind.int)] (by decide)
  ⟨⟨rfl, by decide⟩, h.1, h2.2.1, h2.2.2.1, h2.2.2.2 ⟨20, [("x", 2)]⟩⟩

/-- C6: requesting logs for an unregistered plugin name yields the structured
`Plugin does not exist.` error envelope and never a crash; for a registered
name, the handler never answers the not-found envelope and never crashes. -/
theorem C6_unregistered_not_found (now : Nat) (plugins : List Plugin)
    (req : Request) :
    ((plugins.find? fun q => q.name == req.name) = none →
      Handler.plugin_handler now plugins req =
        WResult.resp (WResponse.err "Plugin does not exist.")) ∧
    ∀ p, (plugins.find? fun q => q.name == req.name) = some p →
      (Handler.plugin_handler now plugins req ≠
        WResult.resp (WResponse.err "Plugin does not exist.") ∧
      ∀ m, Handler.plugin_handler now plugins req ≠ WResult.crash m) := by
  constructor
  · intro h
    simp [Handler.plugin_handler, plugin_required, h]
  · intro p hp
    have hbody : Handler.plugin_handler now plugins req =
        plugin_handler_body now plugins req := by
      simp [Handler.plugin_handler, plugin_required, hp]
    have hne1 : WResult.resp
        (WResponse.err "The given datetime cannot be parsed.") ≠
        WResult.resp (WResponse.err "Plugin does not exist.") := by decide
    have hne2 : ∀ m, WResult.resp
        (WResponse.err "The given datetime cannot be parsed.") ≠
        WResult.crash m := fun m h => WResult.noConfusion h
    rw [hbody]
    unfold plugin_handler_body
    rcases hpc : parse_comptarget now req.gteParam req.lteParam with ⟨og, ol⟩
    cases og with
    | none =>
      cases ol <;> exact ⟨hne1, hne2⟩
    | some g =>
      cases ol with
      | none => exact ⟨hne1, hne2⟩
      | some l =>
        have hlog := get_plugin_logs_found plugins req.name p g l hp
        constructor
        · simp [hp, hlog]
        · intro m
          simp [hp, hlog]

/-- Witness for C6: an unregistered name gets the not-found envelope, a
registered one never does and never crashes. -/
theorem C6_witness :
    Handler.plugin_handler 1000000 [diskPlugin] ⟨"nope", none, none⟩ =
      WResult.resp (WResponse.err "Plugin does not exist.") ∧
    Handler.plugin_handler 1000000 [diskPlugin] ⟨"disk", none, none⟩ ≠
      WResult.resp (WResponse.err "Plugin does not exist.") ∧
    Handler.plugin_handler 1000000 [diskPlugin] ⟨"disk", none, none⟩ ≠
      WResult.crash "KeyError" :=
  have h2 := (C6_unregistered_not_found 1000000 [diskPlugin]
    ⟨"disk", none, none⟩).2 diskPlugin rfl
  ⟨(C6_unregistered_not_found 1000000 [diskPlugin] ⟨"nope", none, none⟩).1 rfl,
    h2.1, h2.2 "KeyError"⟩

/-- C7 counterexample: the empty string is an explicitly supplied bound that
cannot be parsed, yet the handler silently substitutes the defaults and
answers success instead of a parse error (`gte=''` is falsy, so
`parse_comptarget` takes the default branch). -/
theorem C7_counterexample :
    dtparse "" = none ∧
    parse_comptarget 1000000 (some "") none =
      (some (ago7 1000000), some 1000000) ∧
    Handler.plugin_handler 1000000 [diskPlugin] ⟨"disk", some "", none⟩ =
      WResult.resp (WResponse.ok
        { name := "disk",
          data := [("usage",
            { type := "line",
              legends := ["created", "free", "used"],
              data := [[999000, 500, 1500]] })],
          details :=
            { description := "disk usage", every := 1,
              lastExecutedAt := none, lastExecutedResult := none } }) := by
  decide

/-- A nonempty unparsable `lte` bound makes `parse_comptarget` fail as a
whole, whatever the `gte` parameter was: if the `gte` step already failed the
result is `(None, None)` anyway, and otherwise the `lte` parse raises inside
the same `try`. -/
theorem parse_comptarget_bad_lte (now : Nat) (gteP : Option String)
    (s : String) (hs : s ≠ "") (hparse : dtparse s = none) :
    parse_comptarget now gteP (some s) = (none, none) := by
  cases gteP with
  | none => simp [parse_comptarget, truthy, hs, hparse]
  | some t =>
    by_cases ht : t = ""
    · simp [parse_comptarget, truthy, ht, hs, hparse]
    · cases hd : dtparse t with
      | none => simp [parse_comptarget, truthy, ht, hs, hparse, hd]
      | some g => simp [parse_comptarget, truthy, ht, hs, hparse, hd]

/-- C7 (amended): a bound that is absent — or explicitly supplied as the
empty string, which is falsy — is replaced by its default
(`gte := now - 7 days`, `lte := now`), independently per bound; an
explicitly supplied nonempty bound string that cannot be parsed, whether it
is the `gte` or the `lte` bound, makes the whole query fail with the
parse-error envelope (no default is substituted), and that outcome is
distinct from any successful response, in particular from one whose result
set is empty. -/
theorem C7_bound_parsing (now : Nat) (plugins : List Plugin)
    (req : Request) (p : Plugin)
    (hp : (plugins.find? fun q => q.name == req.name) = some p) :
    (∀ gteP lteP, truthy gteP = false → truthy lteP = false →
      parse_comptarget now gteP lteP = (some (ago7 now), some now)) ∧
    (∀ s g, dtparse s = some g →
      parse_comptarget now (some s) none = (some g, some now)) ∧
    (∀ s l, dtparse s = some l →
      parse_comptarget now none (some s) = (some (ago7 now), some l)) ∧
    (∀ s, s ≠ "" → dtparse s = none →
      req.gteParam = some s ∨ req.lteParam = some s →
      Handler.plugin_handler now plugins req =
        WResult.resp (WResponse.err "The given datetime cannot be parsed.")) ∧
    ∀ pay, WResult.resp
        (WResponse.err "The given datetime cannot be parsed.") ≠
      WResult.resp (WResponse.ok pay) := by
  refine ⟨?_, ?_, ?_, ?_, ?_⟩
  · intro gteP lteP hg hl
    simp [parse_comptarget, hg, hl]
  · intro s g hparse
    have hs : s ≠ "" := fun he => by simp [he, dtparse] at hparse
    simp [parse_comptarget, truthy, hs, hparse]
  · intro s l hparse
    have hs : s ≠ "" := fun he => by simp [he, dtparse] at hparse
    simp [parse_comptarget, truthy, hs, hparse]
  · intro s hs hparse hor
    have hbody : Handler.plugin_handler now plugins req =
        plugin_handler_body now plugins req := by
      simp [Handler.plugin_handler, plugin_required, hp]
    rw [hbody]
    unfold plugin_handler_body
    have hpc : parse_comptarget now req.gteParam req.lteParam =
        (none, none) := by
      rcases hor with hg | hl
      · rw [hg]
        simp [parse_comptarget, truthy, hs, hparse]
      · rw [hl]
        exact parse_comptarget_bad_lte now req.gteParam s hs hparse
    rw [hpc]
  · intro pay h
    cases h

/-- Witness for the amended C7: absent and empty bounds resolve to the
defaults, a parsable explicit bound keeps the other bound's default, and
`abc` — nonempty and unparsable — fails the query with the parse-error
envelope whether it is supplied as `gte` or as `lte`. -/
theorem C7_witness :
    (([diskPlugin].find? fun q => q.name == "disk") = some diskPlugin ∧
      "abc" ≠ "" ∧ dtparse "abc" = none) ∧
    parse_comptarget 1000000 none none =
      (some (ago7 1000000), some 1000000) ∧
    parse_comptarget 1000000 (some "") (some "") =
      (some (ago7 1000000), some 1000000) ∧
    parse_comptarget 1000000 (some "999990") none =
      (some 999990, some 1000000) ∧
    parse_comptarget 1000000 none (some "999990") =
      (some (ago7 1000000), some 999990) ∧
    Handler.plugin_handler 1000000 [diskPlugin] ⟨"disk", some "abc", none⟩ =
      WResult.resp (WResponse.err "The given datetime cannot be parsed.") ∧
    Handler.plugin_handler 1000000 [diskPlugin] ⟨"disk", none, some "abc"⟩ =
      WResult.resp (WResponse.err "The given datetime cannot be parsed.") :=
  have hg := C7_bound_parsing 1000000 [diskPlugin]
    ⟨"disk", some "abc", none⟩ diskPlugin rfl
  have hl := C7_bound_parsing 1000000 [diskPlugin]
    ⟨"disk", none, some "abc"⟩ diskPlugin rfl
  ⟨⟨rfl, by decide, by decide⟩,
    hg.1 none none rfl rfl,
    hg.1 (some "") (some "") (by decide) (by decide),
    hg.2.1 "999990" 999990 (by decide),
    hg.2.2.1 "999990" 999990 (by decide),
    hg.2.2.2.1 "abc" (by decide) (by decide) (Or.inl rfl),
    hl.2.2.2.1 "abc" (by decide) (by decide) (Or.inr rfl)⟩

/-- C8: for a registered plugin, the logs result contains, for each declared
field group, a `fielddata` whose legends are `created` followed by the metric
names in declaration order, whose type is the group's rendering hint, and
whose rows are `[epoch(created_at), values...]` in the same declaration
order. -/
theorem C8_chart_row_shape (plugins : List Plugin) (name : String)
    (p : Plugin) (k : String) (v : List (String × NumKind)) (gte lte : Nat)
    (s : Sample) (vs : List Int)
    (hp : (plugins.find? fun q => q.name == name) = some p)
    (hkv : (k, v) ∈ p.fields)
    (hnd : (v.map Prod.fst).Nodup)
    (hitems : s.items = (v.map Prod.fst).zip vs)
    (hlen : vs.length = (v.map Prod.fst).length) :
    (∃ groups, Handler.get_plugin_logs plugins name gte lte =
        Except.ok groups ∧ (k, fieldDataFor p k v gte lte) ∈ groups) ∧
    (fieldDataFor p k v gte lte).legends = "created" :: v.map Prod.fst ∧
    (fieldDataFor p k v gte lte).type = fieldTypeOf p k ∧
    (fieldDataFor p k v gte lte).data =
      (Model.objects (modelsOf p k) gte lte).map (rowOf v) ∧
    rowOf v s = (unixtime s.created_at : Int) :: vs := by
  refine ⟨⟨_, get_plugin_logs_found plugins name p gte lte hp,
    List.mem_map_of_mem _ hkv⟩, rfl, rfl, rfl, ?_⟩
  unfold rowOf
  congr 1
  rw [hitems]
  have hmm : v.map (fun nk => getAttr ((v.map Prod.fst).zip vs) nk.1)
      = (v.map Prod.fst).map
          fun n => getAttr ((v.map Prod.fst).zip vs) n := by
    rw [List.map_map]
    rfl
  rw [hmm]
  exact map_lookup_zip (v.map Prod.fst) vs hnd hlen

/-- Witness for C8 on the spec's `disk` scenario: one sample
`free=500, used=1500` at time `999000`. -/
theorem C8_witness :
    (([diskPlugin].find? fun q => q.name == "disk") = some diskPlugin ∧
      ("usage", [("free", NumKind.int), ("used", NumKind.int)]) ∈
        diskPlugin.fields) ∧
    (fieldDataFor diskPlugin "usage"
        [("free", NumKind.int), ("used", NumKind.int)] 998940 999060).legends =
      "created" :: ["free", "used"] ∧
    (fieldDataFor diskPlugin "usage"
        [("free", NumKind.int), ("used", NumKind.int)] 998940 999060).type =
      fieldTypeOf diskPlugin "usage" ∧
    rowOf [("free", NumKind.int), ("used", NumKind.int)]
        ⟨999000, [("free", 500), ("used", 1500)]⟩ =
      (999000 : Int) :: [500, 1500] :=
  have h := C8_chart_row_shape [diskPlugin] "disk" diskPlugin "usage"
    [("free", NumKind.int), ("used", NumKind.int)] 998940 999060
    ⟨999000, [("free", 500), ("used", 1500)]⟩ [500, 1500]
    rfl (by decide) (by decide) rfl (by decide)
  ⟨⟨rfl, by decide⟩, h.2.1, h.2.2.1, h.2.2.2.2⟩

end Harpseal
